import Mathlib

/-!
Verification of the Quiz API service (src/main.py): a CRUD HTTP service over
two Postgres tables, `categories` and `questions`.  The embedding models the
database state explicitly and gives one Lean function per endpoint handler,
faithful to the SQL each handler issues and to the constraints declared in
`create_tables` (UNIQUE name, CHAR(1) answer with a CHECK constraint, foreign
key with ON DELETE CASCADE).
-/

deriving instance DecidableEq for Except

namespace QuizApi

/-- A row of the `categories` table.  `id SERIAL PRIMARY KEY`,
`name TEXT NOT NULL UNIQUE`, `description TEXT` (nullable), `emoji TEXT`.
The `Category` response model requires `emoji : str`, and every row is
inserted through `add_category`, which always supplies a string, so `emoji`
is modelled as `String`; `description` is `Optional[str]` in the model and
nullable in the table, hence `Option String`. -/
structure Category where
  id : Nat
  name : String
  description : Option String
  emoji : String
deriving Repr, DecidableEq

/-- A row of the `questions` table.  `answer CHAR(1)` is a single character
(`CHECK (answer IN ('A','B','C','D'))`); `category_id INTEGER REFERENCES
categories(id) ON DELETE CASCADE`.  Rows only arise from the handlers, which
always supply a category id, so `category_id : Nat`. -/
structure Question where
  id : Nat
  question : String
  a_var : String
  b_var : String
  c_var : String
  d_var : String
  answer : Char
  category_id : Nat
deriving Repr, DecidableEq

/-- The one-character `answer` column as it appears on the wire (JSON
serializes `CHAR(1)` as a one-character string). -/
def Question.answerStr (q : Question) : String :=
  String.mk [q.answer]

/-- Pydantic `CategoryCreate`: `name : str`, `description : Optional[str]`,
`emoji : str`. -/
structure CategoryCreate where
  name : String
  description : Option String
  emoji : String
deriving Repr, DecidableEq

/-- Pydantic `QuestionCreate`: all seven fields required. -/
structure QuestionCreate where
  question : String
  a_var : String
  b_var : String
  c_var : String
  d_var : String
  answer : String
  category_id : Nat
deriving Repr, DecidableEq

/-- The database: both tables plus the SERIAL sequences assigning ids. -/
structure DbState where
  categories : List Category
  questions : List Question
  nextCategoryId : Nat
  nextQuestionId : Nat
deriving Repr, DecidableEq

/-- Errors raised by the store (asyncpg exception classes relevant here). -/
inductive DbError where
  /-- Raised as `asyncpg.UniqueViolationError` (duplicate category name). -/
  | uniqueViolation
  /-- Raised as `asyncpg.CheckViolationError` (answer outside the CHECK list). -/
  | checkViolation
  /-- Raised as `asyncpg.ForeignKeyViolationError` (category_id references no row). -/
  | foreignKeyViolation
  /-- Raised as `asyncpg.StringDataRightTruncationError`: a text value longer than the
  declared length of a `CHAR(n)` column (Postgres error 22001). -/
  | stringDataRightTruncation
  /-- Negative argument to SQL `LIMIT` (Postgres error 2201W). -/
  | invalidLimit
deriving Repr, DecidableEq

/-- An HTTP error response, as produced by `HTTPException` (or by an
exception the handler does not catch, which the framework maps to a 500
with no handler-chosen detail). -/
structure ApiError where
  status : Nat
  detail : String
deriving Repr, DecidableEq

/-- An asyncpg exception that no `except` clause of the handler catches:
it propagates out of the handler and the framework turns it into an
internal server error (HTTP 500), not a handler-chosen 4xx. -/
def uncaught (_e : DbError) : ApiError :=
  { status := 500, detail := "Internal Server Error" }

/-- Python `str.upper()` on the ASCII strings this API deals in
(maps each character to its uppercase form, as `String.toUpper` does). -/
def pyUpper (s : String) : String :=
  String.mk (s.data.map Char.toUpper)

/-- Postgres input coercion of a text parameter into a `CHAR(1)` column:
a shorter (empty) value is blank-padded to length 1; a longer value raises
error 22001 unless all excess characters are spaces, in which case it is
truncated to the declared length. -/
def char1OfString (v : String) : Except DbError Char :=
  match v.data with
  | [] => .ok ' '
  | c :: rest =>
      if rest.all (fun d => d = ' ') then .ok c
      else .error .stringDataRightTruncation

/-- The CHECK constraint on `questions.answer`:
`CHECK (answer IN ('A', 'B', 'C', 'D'))`. -/
def answerCheck (c : Char) : Bool :=
  c = 'A' || c = 'B' || c = 'C' || c = 'D'

/-- The statement `SELECT 1 FROM categories WHERE id = $1` viewed as an existence test. -/
def categoryExists (s : DbState) (cid : Nat) : Bool :=
  s.categories.any (fun c => c.id = cid)

/-- Whether some question row has the given id. -/
def questionExists (s : DbState) (qid : Nat) : Bool :=
  s.questions.any (fun q => q.id = qid)

/-- The statement `INSERT INTO categories (name, description, emoji) VALUES ($1,$2,$3)
RETURNING id, name, description, emoji`.  The UNIQUE constraint on `name`
rejects a duplicate (case-sensitive TEXT equality); otherwise the sequence
assigns the id and the row is returned. -/
def insertCategory (s : DbState) (name : String) (descr : Option String)
    (emoji : String) : Except DbError (Category × DbState) :=
  if s.categories.any (fun c => c.name = name) then
    .error .uniqueViolation
  else
    let c : Category :=
      { id := s.nextCategoryId, name := name, description := descr, emoji := emoji }
    .ok (c, { s with categories := s.categories ++ [c],
                     nextCategoryId := s.nextCategoryId + 1 })

/-- The statement `SELECT id, name, description, emoji FROM categories LIMIT $1`.
A negative limit is a Postgres error; otherwise the store returns at most
`limit` rows in its natural return order. -/
def selectCategories (s : DbState) (limit : Int) :
    Except DbError (List Category) :=
  if limit < 0 then .error .invalidLimit
  else .ok (s.categories.take limit.toNat)

/-- The statement `DELETE FROM categories WHERE id = $1`, returning the affected-row
count; `ON DELETE CASCADE` on `questions.category_id` removes every
question owned by a deleted category. -/
def deleteCategoryRows (s : DbState) (cid : Nat) : Nat × DbState :=
  let removed := s.categories.filter (fun c => c.id = cid)
  (removed.length,
   { s with categories := s.categories.filter (fun c => ¬ c.id = cid),
            questions := s.questions.filter (fun q => ¬ q.category_id = cid) })

/-- The statement `INSERT INTO questions (...) VALUES ($1,...,$7) RETURNING ...`.
Parameter coercion into `CHAR(1)` happens first; the CHECK constraint is
verified on the row; the foreign key is checked by the store as the last
line of defense.  On success the sequence assigns the id. -/
def insertQuestion (s : DbState) (qtext a b c d : String) (answer : String)
    (cid : Nat) : Except DbError (Question × DbState) :=
  match char1OfString answer with
  | .error e => .error e
  | .ok ch =>
      if answerCheck ch then
        if categoryExists s cid then
          let q : Question :=
            { id := s.nextQuestionId, question := qtext, a_var := a, b_var := b,
              c_var := c, d_var := d, answer := ch, category_id := cid }
          .ok (q, { s with questions := s.questions ++ [q],
                           nextQuestionId := s.nextQuestionId + 1 })
        else .error .foreignKeyViolation
      else .error .checkViolation

/-- The statement `UPDATE questions SET ... WHERE id = $8 RETURNING ...`.  Parameter
coercion happens even when no row matches; constraints are only checked on
rows actually updated; `fetchrow` yields no record when the WHERE clause
matches nothing. -/
def updateQuestion (s : DbState) (qid : Nat) (qtext a b c d : String)
    (answer : String) (cid : Nat) :
    Except DbError (Option (Question × DbState)) :=
  match char1OfString answer with
  | .error e => .error e
  | .ok ch =>
      if questionExists s qid then
        if answerCheck ch then
          if categoryExists s cid then
            let q : Question :=
              { id := qid, question := qtext, a_var := a, b_var := b,
                c_var := c, d_var := d, answer := ch, category_id := cid }
            .ok (some (q,
              { s with questions :=
                  s.questions.map (fun old => if old.id = qid then q else old) }))
          else .error .foreignKeyViolation
        else .error .checkViolation
      else .ok none

/-- The statement `DELETE FROM questions WHERE id = $1`, returning the affected-row
count. -/
def deleteQuestionRows (s : DbState) (qid : Nat) : Nat × DbState :=
  let removed := s.questions.filter (fun q => q.id = qid)
  (removed.length,
   { s with questions := s.questions.filter (fun q => ¬ q.id = qid) })

/-! ### Endpoint handlers

Each handler takes its request data and the database state and returns the
response (`Except ApiError body`) together with the database state after the
request.  A failed single SQL statement changes nothing, so every error
leaves the state as it was. -/

/-- Success status declared by `@app.post("/categories/", ..., status_code=201)`. -/
def add_category_status : Nat := 201

/-- Handler `add_category`: insert, translating `UniqueViolationError` into a 400. -/
def add_category (input : CategoryCreate) (s : DbState) :
    Except ApiError Category × DbState :=
  match insertCategory s input.name input.description input.emoji with
  | .ok (c, s') => (.ok c, s')
  | .error .uniqueViolation => (.error ⟨400, "Category name already exists."⟩, s)
  | .error e => (.error (uncaught e), s)

/-- Success status of `@app.get("/categories/")` (FastAPI default). -/
def get_categories_status : Nat := 200

/-- Default of the `limit` query parameter: `limit: int = 10`. -/
def defaultLimit : Int := 10

/-- Handler `get_categories`: list categories with the given `limit`. -/
def get_categories (limit : Int) (s : DbState) :
    Except ApiError (List Category) :=
  match selectCategories s limit with
  | .ok l => .ok l
  | .error e => .error (uncaught e)

/-- Handler `get_categories` when the request omits `limit` (FastAPI substitutes the
declared default). -/
def get_categories_default (s : DbState) : Except ApiError (List Category) :=
  get_categories defaultLimit s

/-- Handler `get_category`: fetch one row by id, 404 when `fetchrow` yields none. -/
def get_category (cid : Nat) (s : DbState) : Except ApiError Category :=
  match s.categories.find? (fun c => c.id = cid) with
  | some c => .ok c
  | none => .error ⟨404, "Category not found."⟩

/-- Success status declared by `@app.delete("/categories/...", status_code=204)`. -/
def delete_category_status : Nat := 204

/-- Handler `delete_category`: delete by id (the store cascades onto questions);
`DELETE 0` affected rows is a 404. -/
def delete_category (cid : Nat) (s : DbState) :
    Except ApiError Unit × DbState :=
  let (count, s') := deleteCategoryRows s cid
  if count = 0 then (.error ⟨404, "Category not found."⟩, s)
  else (.ok (), s')

/-- Success status declared by `@app.post("/questions/", ..., status_code=201)`. -/
def add_question_status : Nat := 201

/-- Handler `add_question`: pre-check that the category exists (400 otherwise),
then insert with the answer uppercased, translating `CheckViolationError`
into a 400; any other store exception is uncaught. -/
def add_question (input : QuestionCreate) (s : DbState) :
    Except ApiError Question × DbState :=
  if ¬ categoryExists s input.category_id then
    (.error ⟨400, "Category does not exist."⟩, s)
  else
    match insertQuestion s input.question input.a_var input.b_var input.c_var
        input.d_var (pyUpper input.answer) input.category_id with
    | .ok (q, s') => (.ok q, s')
    | .error .checkViolation => (.error ⟨400, "Answer must be A, B, C or D."⟩, s)
    | .error e => (.error (uncaught e), s)

/-- Success status of `@app.put("/questions/...")` (FastAPI default). -/
def change_question_status : Nat := 200

/-- Handler `change_question`: pre-check that the new category exists (400
otherwise), then update with the answer uppercased; no returned record is a
404; `CheckViolationError` is a 400; any other store exception is
uncaught. -/
def change_question (qid : Nat) (input : QuestionCreate) (s : DbState) :
    Except ApiError Question × DbState :=
  if ¬ categoryExists s input.category_id then
    (.error ⟨400, "Category does not exist."⟩, s)
  else
    match updateQuestion s qid input.question input.a_var input.b_var
        input.c_var input.d_var (pyUpper input.answer) input.category_id with
    | .ok (some (q, s')) => (.ok q, s')
    | .ok none => (.error ⟨404, "Question not found."⟩, s)
    | .error .checkViolation => (.error ⟨400, "Answer must be A, B, C or D."⟩, s)
    | .error e => (.error (uncaught e), s)

/-- Success status declared by `@app.delete("/questions/...", status_code=204)`. -/
def delete_question_status : Nat := 204

/-- The message object the success path of `delete_question` returns. -/
def deleteQuestionMessage : String := "Question deleted successfully."

/-- Handler `delete_question`: delete by id; `DELETE 0` affected rows is a 404.
On the success path the handler body executes
`return {"message": "Question deleted successfully."}` (the bare `return`
after the `raise` is the unreachable statement), so the handler's return
value is that message object, modelled as `some` of the message string;
`none` would be an empty body. -/
def delete_question (qid : Nat) (s : DbState) :
    Except ApiError (Option String) × DbState :=
  let (count, s') := deleteQuestionRows s qid
  if count = 0 then (.error ⟨404, "Question not found."⟩, s)
  else (.ok (some deleteQuestionMessage), s')

/-- Handler `get_question`: fetch one row by id, 404 when `fetchrow` yields none. -/
def get_question (qid : Nat) (s : DbState) : Except ApiError Question :=
  match s.questions.find? (fun q => q.id = qid) with
  | some q => .ok q
  | none => .error ⟨404, "Question not found."⟩

/-- Handler `get_questions_by_category`: pre-check that the category exists (404
otherwise), then list all questions with that `category_id`. -/
def get_questions_by_category (cid : Nat) (s : DbState) :
    Except ApiError (List Question) :=
  if ¬ categoryExists s cid then .error ⟨404, "Category not found."⟩
  else .ok (s.questions.filter (fun q => q.category_id = cid))

/-! ### Input validation (Pydantic)

FastAPI parses the request body into `QuestionCreate` before the handler
runs; a body missing any of the seven required fields (none has a default)
is rejected by validation and the handler — hence any store call — is never
reached. -/

/-- A raw request body for a question write: each field either present or
absent. -/
structure RawQuestionPayload where
  question : Option String
  a_var : Option String
  b_var : Option String
  c_var : Option String
  d_var : Option String
  answer : Option String
  category_id : Option Nat
deriving Repr, DecidableEq

/-- Pydantic validation of a question body: succeeds exactly when all seven
required fields are present, producing the `QuestionCreate` the handler
receives. -/
def parseQuestionCreate (raw : RawQuestionPayload) : Option QuestionCreate :=
  match raw.question, raw.a_var, raw.b_var, raw.c_var, raw.d_var,
      raw.answer, raw.category_id with
  | some q, some a, some b, some c, some d, some ans, some cid =>
      some { question := q, a_var := a, b_var := b, c_var := c, d_var := d,
             answer := ans, category_id := cid }
  | _, _, _, _, _, _, _ => none

end QuizApi
namespace QuizApi

theorem char1OfString_of_length_one (v : String) (h : v.length = 1) :
    ∃ c, v.data = [c] ∧ char1OfString v = .ok c ∧ String.mk [c] = v := by
  have h' : v.data.length = 1 := h
  obtain ⟨c, hc⟩ := List.length_eq_one.mp h'
  refine ⟨c, hc, by simp [char1OfString, hc], by rw [← hc]⟩

theorem add_question_ok_inv (input : QuestionCreate) (s : DbState)
    (q : Question) (s' : DbState)
    (h : add_question input s = (.ok q, s')) :
    categoryExists s input.category_id = true ∧
    char1OfString (pyUpper input.answer) = .ok q.answer ∧
    answerCheck q.answer = true ∧
    q = { id := s.nextQuestionId, question := input.question, a_var := input.a_var,
          b_var := input.b_var, c_var := input.c_var, d_var := input.d_var,
          answer := q.answer, category_id := input.category_id } ∧
    s' = { s with questions := s.questions ++ [q],
                  nextQuestionId := s.nextQuestionId + 1 } := by
  unfold add_question at h
  split at h
  · simp at h
  · rename_i hcat
    rw [not_not] at hcat
    split at h
    · rename_i q0 s0 heq
      rw [Prod.mk.injEq] at h
      obtain ⟨h1, h2⟩ := h
      rw [Except.ok.injEq] at h1
      subst h1
      subst h2
      unfold insertQuestion at heq
      split at heq
      · simp at heq
      · rename_i ch hch
        split at heq
        · rename_i hchk
          simp only [Except.ok.injEq, Prod.mk.injEq] at heq
          obtain ⟨hq, hs⟩ := heq
          subst hs
          rw [← hq]
          exact ⟨hcat, hch, hchk, rfl, rfl⟩
        · simp at heq
    · simp at h
    · simp at h


theorem change_question_ok_inv (qid : Nat) (input : QuestionCreate)
    (s : DbState) (q : Question) (s' : DbState)
    (h : change_question qid input s = (.ok q, s')) :
    categoryExists s input.category_id = true ∧
    questionExists s qid = true ∧
    char1OfString (pyUpper input.answer) = .ok q.answer ∧
    answerCheck q.answer = true ∧
    q = { id := qid, question := input.question, a_var := input.a_var,
          b_var := input.b_var, c_var := input.c_var, d_var := input.d_var,
          answer := q.answer, category_id := input.category_id } ∧
    s' = { s with questions :=
            s.questions.map (fun old => if old.id = qid then q else old) } := by
  unfold change_question at h
  split at h
  · simp at h
  · rename_i hcat
    rw [not_not] at hcat
    split at h
    · rename_i q0 s0 heq
      rw [Prod.mk.injEq] at h
      obtain ⟨h1, h2⟩ := h
      rw [Except.ok.injEq] at h1
      subst h1
      subst h2
      unfold updateQuestion at heq
      split at heq
      · simp at heq
      · rename_i ch hch
        split at heq
        · rename_i hqex
          split at heq
          · rename_i hchk
            simp only [Except.ok.injEq, Option.some.injEq, Prod.mk.injEq] at heq
            obtain ⟨hq, hs⟩ := heq
            subst hs
            rw [← hq]
            exact ⟨hcat, hqex, hch, hchk, rfl, rfl⟩
          · simp at heq
        · simp at heq
    · simp at h
    · simp at h
    · simp at h


/-! ### Concrete fixtures used by witnesses and counterexamples -/

/-- A category row as created by the end-to-end scenario. -/
def sampleCategory : Category :=
  { id := 1, name := "Science", description := none, emoji := "Q" }

/-- A question row owned by `sampleCategory`. -/
def sampleQuestion : Question :=
  { id := 1, question := "2+2?", a_var := "3", b_var := "4", c_var := "5",
    d_var := "6", answer := 'A', category_id := 1 }

/-- A store with one category (id 1) and one question (id 1). -/
def sampleState : DbState :=
  { categories := [sampleCategory], questions := [sampleQuestion],
    nextCategoryId := 2, nextQuestionId := 2 }

/-- A question write request with a lowercase answer letter. -/
def sampleRequest : QuestionCreate :=
  { question := "3+3?", a_var := "5", b_var := "6", c_var := "7", d_var := "8",
    answer := "b", category_id := 1 }

/-! ### Claims -/

/-- C3: a create-question request whose category_id references no existing
category inserts nothing (the state is returned unchanged) and yields the
category-missing error, HTTP 400. -/
theorem c3_create_question_missing_category (input : QuestionCreate)
    (s : DbState) (h : categoryExists s input.category_id = false) :
    add_question input s = (.error ⟨400, "Category does not exist."⟩, s) := by
  unfold add_question
  rw [h]
  simp

theorem c3_witness :
    categoryExists sampleState 9 = false ∧
    add_question { sampleRequest with category_id := 9 } sampleState =
      (.error ⟨400, "Category does not exist."⟩, sampleState) :=
  ⟨by decide,
   c3_create_question_missing_category { sampleRequest with category_id := 9 }
     sampleState (by decide)⟩

/-- C9: in the update handler the category pre-check runs before the question
lookup, so an update naming a nonexistent question id together with a
nonexistent category_id yields the category-missing 400 (not a 404) and the
store is left unchanged. -/
theorem c9_update_category_precheck_first (qid : Nat) (input : QuestionCreate)
    (s : DbState) (_hq : questionExists s qid = false)
    (hc : categoryExists s input.category_id = false) :
    change_question qid input s = (.error ⟨400, "Category does not exist."⟩, s) := by
  unfold change_question
  rw [hc]
  simp

theorem c9_witness :
    questionExists sampleState 7 = false ∧
    categoryExists sampleState 9 = false ∧
    change_question 7 { sampleRequest with category_id := 9 } sampleState =
      (.error ⟨400, "Category does not exist."⟩, sampleState) :=
  ⟨by decide, by decide,
   c9_update_category_precheck_first 7 { sampleRequest with category_id := 9 }
     sampleState (by decide) (by decide)⟩

/-- C5: an update of an existing question, with an existing category, whose
answer letter (after uppercasing, a single character) is outside {A,B,C,D}
returns the check-violation 400 and leaves the store, in particular the
stored row, completely unchanged. -/
theorem c5_update_invalid_answer_unchanged (qid : Nat) (input : QuestionCreate)
    (s : DbState) (c : Char) (hq : questionExists s qid = true)
    (hcat : categoryExists s input.category_id = true)
    (hup : pyUpper input.answer = String.mk [c])
    (hbad : answerCheck c = false) :
    change_question qid input s =
      (.error ⟨400, "Answer must be A, B, C or D."⟩, s) := by
  unfold change_question
  rw [hcat]
  unfold updateQuestion
  rw [hup]
  simp [char1OfString, hq, hbad]

theorem c5_witness :
    questionExists sampleState 1 = true ∧
    categoryExists sampleState 1 = true ∧
    pyUpper "E" = String.mk ['E'] ∧
    answerCheck ('E') = false ∧
    change_question 1 { sampleRequest with answer := "E" } sampleState =
      (.error ⟨400, "Answer must be A, B, C or D."⟩, sampleState) :=
  ⟨by decide, by decide, by decide, by decide,
   c5_update_invalid_answer_unchanged 1 { sampleRequest with answer := "E" }
     sampleState ('E') (by decide) (by decide) (by decide) (by decide)⟩


/-- The row `add_category` creates from a request when the name is fresh. -/
def newCategory (input : CategoryCreate) (s : DbState) : Category :=
  { id := s.nextCategoryId, name := input.name,
    description := input.description, emoji := input.emoji }

/-- C4: creating a category whose name equals (case-sensitively) the name of
an existing category returns the duplicate-name 400 and leaves the store
unchanged (no overwrite); with a previously unused name it succeeds, with
declared status 201, the store-assigned id, and the request's fields. -/
theorem c4_create_category_duplicate_name (input : CategoryCreate)
    (s : DbState) :
    ((∃ c ∈ s.categories, c.name = input.name) →
      add_category input s =
        (.error ⟨400, "Category name already exists."⟩, s)) ∧
    ((∀ c ∈ s.categories, c.name ≠ input.name) →
      add_category input s =
        (.ok (newCategory input s),
         { s with categories := s.categories ++ [newCategory input s],
                  nextCategoryId := s.nextCategoryId + 1 })) ∧
    add_category_status = 201 := by
  refine ⟨?_, ?_, rfl⟩
  · intro hdup
    have hany : s.categories.any (fun c => c.name = input.name) = true := by
      rw [List.any_eq_true]
      obtain ⟨c, hc, he⟩ := hdup
      exact ⟨c, hc, by simp [he]⟩
    unfold add_category insertCategory
    rw [hany]
    simp
  · intro hfresh
    have hany : s.categories.any (fun c => c.name = input.name) = false := by
      rw [Bool.eq_false_iff]
      intro hcontra
      rw [List.any_eq_true] at hcontra
      obtain ⟨c, hc, he⟩ := hcontra
      exact hfresh c hc (by simpa using he)
    unfold add_category insertCategory newCategory
    rw [hany]
    simp

theorem c4_witness :
    (sampleCategory ∈ sampleState.categories ∧ sampleCategory.name = "Science") ∧
    add_category { name := "Science", description := none, emoji := "R" }
        sampleState =
      (.error ⟨400, "Category name already exists."⟩, sampleState) ∧
    add_category { name := "History", description := none, emoji := "H" }
        sampleState =
      (.ok { id := 2, name := "History", description := none, emoji := "H" },
       { sampleState with
           categories := sampleState.categories ++
             [{ id := 2, name := "History", description := none, emoji := "H" }],
           nextCategoryId := 3 }) :=
  ⟨⟨by decide, by decide⟩,
   (c4_create_category_duplicate_name
       { name := "Science", description := none, emoji := "R" } sampleState).1
     ⟨sampleCategory, by decide, by decide⟩,
   (c4_create_category_duplicate_name
       { name := "History", description := none, emoji := "H" } sampleState).2.1
     (by decide)⟩

/-- A store holding five categories, for the C8 witness. -/
def fiveCategoryState : DbState :=
  { categories :=
      [{ id := 1, name := "A1", description := none, emoji := "a" },
       { id := 2, name := "A2", description := none, emoji := "b" },
       { id := 3, name := "A3", description := none, emoji := "c" },
       { id := 4, name := "A4", description := none, emoji := "d" },
       { id := 5, name := "A5", description := none, emoji := "e" }],
    questions := [], nextCategoryId := 6, nextQuestionId := 1 }

/-- C8: listing categories with a nonnegative `limit` returns (with HTTP 200)
the possibly empty first `limit` rows of the table, so with `limit = 2` and
five categories exactly two entries come back; an absent `limit` query
parameter means the declared default, 10. -/
theorem c8_list_categories_limit (s : DbState) :
    (s.categories.length = 5 →
      get_categories 2 s = .ok (s.categories.take 2) ∧
      (s.categories.take 2).length = 2) ∧
    get_categories_default s = get_categories defaultLimit s ∧
    defaultLimit = 10 ∧
    (∀ limit : Int, 0 ≤ limit →
      get_categories limit s = .ok (s.categories.take limit.toNat)) ∧
    get_categories_status = 200 := by
  have hpos : ∀ limit : Int, 0 ≤ limit →
      get_categories limit s = .ok (s.categories.take limit.toNat) := by
    intro limit hle
    unfold get_categories selectCategories
    rw [if_neg (by omega)]
  refine ⟨?_, rfl, rfl, hpos, rfl⟩
  intro h5
  refine ⟨hpos 2 (by omega), ?_⟩
  rw [List.length_take, h5]
  decide

theorem c8_witness :
    fiveCategoryState.categories.length = 5 ∧
    get_categories 2 fiveCategoryState =
      .ok (fiveCategoryState.categories.take 2) ∧
    (fiveCategoryState.categories.take 2).length = 2 ∧
    get_categories_default fiveCategoryState =
      get_categories defaultLimit fiveCategoryState ∧
    defaultLimit = 10 ∧
    get_categories 3 fiveCategoryState =
      .ok (fiveCategoryState.categories.take (3 : Int).toNat) ∧
    get_categories_status = 200 :=
  ⟨by decide,
   ((c8_list_categories_limit fiveCategoryState).1 (by decide)).1,
   ((c8_list_categories_limit fiveCategoryState).1 (by decide)).2,
   (c8_list_categories_limit fiveCategoryState).2.1,
   (c8_list_categories_limit fiveCategoryState).2.2.1,
   (c8_list_categories_limit fiveCategoryState).2.2.2.1 3 (by omega),
   (c8_list_categories_limit fiveCategoryState).2.2.2.2⟩


/-- C1: deleting an existing category succeeds (declared status 204) and
cascades: listing questions of the deleted id becomes a 404, and a direct
get of any question id previously owned by that category is a 404
(question ids are unique, coming from a SERIAL primary key). -/
theorem c1_delete_category_cascade (s : DbState) (cid : Nat)
    (hex : categoryExists s cid = true)
    (hids : (s.questions.map Question.id).Nodup) :
    (delete_category cid s).1 = .ok () ∧
    delete_category_status = 204 ∧
    get_questions_by_category cid (delete_category cid s).2 =
      .error ⟨404, "Category not found."⟩ ∧
    ∀ q ∈ s.questions, q.category_id = cid →
      get_question q.id (delete_category cid s).2 =
        .error ⟨404, "Question not found."⟩ := by
  have hcount : ¬ (s.categories.filter (fun c => c.id = cid)).length = 0 := by
    rw [categoryExists, List.any_eq_true] at hex
    obtain ⟨c, hc, he⟩ := hex
    have hmem : c ∈ s.categories.filter (fun c => c.id = cid) :=
      List.mem_filter.mpr ⟨hc, he⟩
    intro hlen
    rw [List.length_eq_zero] at hlen
    rw [hlen] at hmem
    exact absurd hmem (List.not_mem_nil c)
  have hpair : delete_category cid s =
      (.ok (),
       { s with categories := s.categories.filter (fun c => ¬ c.id = cid),
                questions := s.questions.filter (fun q => ¬ q.category_id = cid) }) := by
    unfold delete_category deleteCategoryRows
    dsimp only
    rw [if_neg hcount]
  rw [hpair]
  refine ⟨rfl, rfl, ?_, ?_⟩
  · have hgone :
        categoryExists
          { s with categories := s.categories.filter (fun c => ¬ c.id = cid),
                   questions := s.questions.filter (fun q => ¬ q.category_id = cid) }
          cid = false := by
      rw [categoryExists, Bool.eq_false_iff]
      intro hcontra
      rw [List.any_eq_true] at hcontra
      obtain ⟨c, hc, he⟩ := hcontra
      rw [List.mem_filter] at hc
      simp only [decide_eq_true_eq] at hc he
      exact hc.2 he
    unfold get_questions_by_category
    rw [hgone]
    simp
  · intro q hq hqc
    have hfind :
        (s.questions.filter (fun q => ¬ q.category_id = cid)).find?
          (fun x => x.id = q.id) = none := by
      rw [List.find?_eq_none]
      intro x hx
      rw [List.mem_filter] at hx
      obtain ⟨hxmem, hxcat⟩ := hx
      simp only [decide_eq_true_eq] at hxcat ⊢
      intro hxid
      have hxq : x = q := List.inj_on_of_nodup_map hids hxmem hq hxid
      rw [hxq] at hxcat
      exact hxcat hqc
    unfold get_question
    simp only []
    rw [hfind]

theorem c1_witness :
    categoryExists sampleState 1 = true ∧
    (sampleState.questions.map Question.id).Nodup ∧
    (delete_category 1 sampleState).1 = .ok () ∧
    delete_category_status = 204 ∧
    get_questions_by_category 1 (delete_category 1 sampleState).2 =
      .error ⟨404, "Category not found."⟩ ∧
    get_question sampleQuestion.id (delete_category 1 sampleState).2 =
      .error ⟨404, "Question not found."⟩ :=
  ⟨by decide, by decide,
   (c1_delete_category_cascade sampleState 1 (by decide) (by decide)).1,
   (c1_delete_category_cascade sampleState 1 (by decide) (by decide)).2.1,
   (c1_delete_category_cascade sampleState 1 (by decide) (by decide)).2.2.1,
   (c1_delete_category_cascade sampleState 1 (by decide) (by decide)).2.2.2
     sampleQuestion (by decide) (by decide)⟩


/-- C2: both question write handlers submit the uppercased `answer` to the
store, so two requests differing only in the casing of `answer` behave
identically; when the (uppercased) answer is a single character and the
write succeeds, the stored and returned value is exactly that uppercase
form — a question created with answer "b" is stored and returned as "B". -/
theorem c2_answer_uppercase_normalization (s : DbState) (qid : Nat)
    (input input' : QuestionCreate)
    (hq : input'.question = input.question) (ha : input'.a_var = input.a_var)
    (hb : input'.b_var = input.b_var) (hc : input'.c_var = input.c_var)
    (hd : input'.d_var = input.d_var)
    (hcid : input'.category_id = input.category_id)
    (hans : pyUpper input'.answer = pyUpper input.answer) :
    add_question input' s = add_question input s ∧
    change_question qid input' s = change_question qid input s ∧
    ((pyUpper input.answer).length = 1 →
      (∀ q s', add_question input s = (.ok q, s') →
        q.answerStr = pyUpper input.answer ∧ q ∈ s'.questions) ∧
      (∀ q s', change_question qid input s = (.ok q, s') →
        q.answerStr = pyUpper input.answer ∧ q ∈ s'.questions)) := by
  refine ⟨?_, ?_, ?_⟩
  · obtain ⟨q0, a0, b0, c0, d0, ans0, cid0⟩ := input
    obtain ⟨q1, a1, b1, c1, d1, ans1, cid1⟩ := input'
    simp only at hq ha hb hc hd hcid hans
    subst hq; subst ha; subst hb; subst hc; subst hd; subst hcid
    unfold add_question insertQuestion
    dsimp only
    rw [hans]
  · obtain ⟨q0, a0, b0, c0, d0, ans0, cid0⟩ := input
    obtain ⟨q1, a1, b1, c1, d1, ans1, cid1⟩ := input'
    simp only at hq ha hb hc hd hcid hans
    subst hq; subst ha; subst hb; subst hc; subst hd; subst hcid
    unfold change_question updateQuestion
    dsimp only
    rw [hans]
  · intro hlen
    obtain ⟨ch, hdata, hok, hmk⟩ := char1OfString_of_length_one _ hlen
    constructor
    · intro q s' h
      obtain ⟨-, hch, -, -, hs'⟩ := add_question_ok_inv _ _ _ _ h
      rw [hok, Except.ok.injEq] at hch
      refine ⟨?_, ?_⟩
      · unfold Question.answerStr
        rw [← hch, hmk]
      · rw [hs']
        exact List.mem_append_right _ (List.mem_singleton.mpr rfl)
    · intro q s' h
      obtain ⟨-, hqex, hch, -, -, hs'⟩ := change_question_ok_inv _ _ _ _ _ h
      rw [hok, Except.ok.injEq] at hch
      refine ⟨?_, ?_⟩
      · unfold Question.answerStr
        rw [← hch, hmk]
      · rw [hs']
        rw [questionExists, List.any_eq_true] at hqex
        obtain ⟨x, hx, hxid⟩ := hqex
        simp only [decide_eq_true_eq] at hxid
        exact List.mem_map.mpr ⟨x, hx, by rw [if_pos hxid]⟩

/-- The row created by `add_question sampleRequest sampleState`. -/
def createdQuestion : Question :=
  { id := 2, question := "3+3?", a_var := "5", b_var := "6", c_var := "7",
    d_var := "8", answer := 'B', category_id := 1 }

/-- The store after `add_question sampleRequest sampleState`. -/
def stateAfterCreate : DbState :=
  { categories := [sampleCategory],
    questions := [sampleQuestion, createdQuestion],
    nextCategoryId := 2, nextQuestionId := 3 }

theorem c2_witness :
    pyUpper ({ sampleRequest with answer := "B" } : QuestionCreate).answer =
      pyUpper sampleRequest.answer ∧
    (pyUpper sampleRequest.answer).length = 1 ∧
    sampleRequest.answer = "b" ∧
    pyUpper sampleRequest.answer = "B" ∧
    add_question { sampleRequest with answer := "B" } sampleState =
      add_question sampleRequest sampleState ∧
    createdQuestion.answerStr = pyUpper sampleRequest.answer ∧
    createdQuestion ∈ stateAfterCreate.questions :=
  ⟨by decide, by decide, by decide, by decide,
   (c2_answer_uppercase_normalization sampleState 1 sampleRequest
      { sampleRequest with answer := "B" } rfl rfl rfl rfl rfl rfl
      (by decide)).1,
   (((c2_answer_uppercase_normalization sampleState 1 sampleRequest
      { sampleRequest with answer := "B" } rfl rfl rfl rfl rfl rfl
      (by decide)).2.2 (by decide)).1 createdQuestion stateAfterCreate
      (by decide)).1,
   (((c2_answer_uppercase_normalization sampleState 1 sampleRequest
      { sampleRequest with answer := "B" } rfl rfl rfl rfl rfl rfl
      (by decide)).2.2 (by decide)).1 createdQuestion stateAfterCreate
      (by decide)).2⟩


/-- A create-question request whose answer uppercases to the two-character
value "AB": not in {A,B,C,D}, and longer than the `CHAR(1)` column. -/
def badLengthRequest : QuestionCreate :=
  { question := "3+3?", a_var := "5", b_var := "6", c_var := "7", d_var := "8",
    answer := "ab", category_id := 1 }

/-- C7 counterexample: on an existing category, a create-question request
whose answer normalizes to "AB" (outside {A,B,C,D} and longer than one
character) does not get a 400: the store's CHAR(1) length error is not one
the handler catches, so it surfaces as a 500.  No row is created (the state
comes back unchanged). -/
theorem c7_counterexample :
    categoryExists sampleState badLengthRequest.category_id = true ∧
    pyUpper badLengthRequest.answer = "AB" ∧
    add_question badLengthRequest sampleState =
      (.error (uncaught .stringDataRightTruncation), sampleState) ∧
    (uncaught DbError.stringDataRightTruncation).status = 500 ∧
    decide ((uncaught DbError.stringDataRightTruncation).status = 400) = false := by
  refine ⟨by decide, by decide, rfl, by decide, by decide⟩

/-- C7 (amended): on an existing category, a create-question request whose
answer uppercases to a single character outside {A,B,C,D} gets the 400
check-violation response and creates no row; an answer that uppercases to
more than one (non-space) character is rejected by the store's CHAR(1)
length coercion, which the handler does not translate — it surfaces as an
internal server error (500) — and still creates no row. -/
theorem c7_create_question_invalid_answer (input : QuestionCreate)
    (s : DbState) :
    (∀ c : Char, categoryExists s input.category_id = true →
      pyUpper input.answer = String.mk [c] → answerCheck c = false →
      add_question input s =
        (.error ⟨400, "Answer must be A, B, C or D."⟩, s)) ∧
    (∀ (c : Char) (rest : List Char),
      categoryExists s input.category_id = true →
      (pyUpper input.answer).data = c :: rest →
      rest.all (fun d => d = ' ') = false →
      add_question input s =
        (.error (uncaught .stringDataRightTruncation), s)) := by
  constructor
  · intro c hcat hup hbad
    unfold add_question insertQuestion
    rw [hcat]
    rw [hup]
    simp [char1OfString, hbad]
  · intro c rest hcat hdata hsp
    unfold add_question insertQuestion
    rw [hcat]
    unfold char1OfString
    rw [hdata]
    simp [hsp]

theorem c7_witness :
    categoryExists sampleState 1 = true ∧
    pyUpper "e" = String.mk ['E'] ∧
    answerCheck 'E' = false ∧
    add_question { sampleRequest with answer := "e" } sampleState =
      (.error ⟨400, "Answer must be A, B, C or D."⟩, sampleState) ∧
    (pyUpper badLengthRequest.answer).data = 'A' :: ['B'] ∧
    (['B'].all fun d => d = ' ') = false ∧
    add_question badLengthRequest sampleState =
      (.error (uncaught .stringDataRightTruncation), sampleState) :=
  ⟨by decide, by decide, by decide,
   (c7_create_question_invalid_answer { sampleRequest with answer := "e" }
      sampleState).1 'E' (by decide) (by decide) (by decide),
   by decide, by decide,
   (c7_create_question_invalid_answer badLengthRequest sampleState).2 'A' ['B']
     (by decide) (by decide) (by decide)⟩

/-- C6: the code's delete-question handler is declared with status 204, yet
its reachable success path returns the message object
`{"message": "Question deleted successfully."}` rather than an empty body
(the bare `return` after the `raise` is the unreachable statement); a
missing id is a 404.  Evaluated at a store containing question id 1. -/
theorem c6_delete_question_body :
    delete_question 1 sampleState =
      (.ok (some deleteQuestionMessage),
       { sampleState with questions := [] }) ∧
    deleteQuestionMessage = "Question deleted successfully." ∧
    (some deleteQuestionMessage).isSome = true ∧
    delete_question_status = 204 ∧
    delete_question 99 sampleState =
      (.error ⟨404, "Question not found."⟩, sampleState) := by
  refine ⟨rfl, rfl, by decide, rfl, rfl⟩

/-- The row stored by `change_question 1 sampleRequest sampleState`: every
field comes from the request, but `answer` is the uppercased form 'B', not
the request's literal "b". -/
def updatedQuestion : Question :=
  { id := 1, question := "3+3?", a_var := "5", b_var := "6", c_var := "7",
    d_var := "8", answer := 'B', category_id := 1 }

/-- C10 counterexample: a successful full update whose request carries
answer "b" stores and returns answer "B" — the stored `answer` field does
not equal the value from the request, refuting "every one of those stored
fields equals the value from the request". -/
theorem c10_counterexample :
    change_question 1 sampleRequest sampleState =
      (.ok updatedQuestion, { sampleState with questions := [updatedQuestion] }) ∧
    sampleRequest.answer = "b" ∧
    updatedQuestion.answerStr = "B" ∧
    decide (updatedQuestion.answerStr = sampleRequest.answer) = false := by
  refine ⟨rfl, rfl, rfl, by decide⟩

/-- C10 (amended): update-question is a full replacement.  A request body
missing any of the seven fields fails Pydantic validation (no
`QuestionCreate` is produced, so no store call happens); on success the
stored row is built entirely from the request: id from the path, the five
text fields and `category_id` verbatim, and `answer` as the store-coerced
uppercase form of the request's answer (equal to the uppercased request
value whenever that is a single character); the old row does not survive. -/
theorem c10_full_replacement (raw : RawQuestionPayload) (qid : Nat)
    (input : QuestionCreate) (s : DbState) :
    ((raw.question = none ∨ raw.a_var = none ∨ raw.b_var = none ∨
      raw.c_var = none ∨ raw.d_var = none ∨ raw.answer = none ∨
      raw.category_id = none) → parseQuestionCreate raw = none) ∧
    (∀ q s', change_question qid input s = (.ok q, s') →
      q.id = qid ∧ q.question = input.question ∧ q.a_var = input.a_var ∧
      q.b_var = input.b_var ∧ q.c_var = input.c_var ∧ q.d_var = input.d_var ∧
      q.category_id = input.category_id ∧
      char1OfString (pyUpper input.answer) = .ok q.answer ∧
      ((pyUpper input.answer).length = 1 →
        q.answerStr = pyUpper input.answer) ∧
      s'.questions =
        s.questions.map (fun old => if old.id = qid then q else old)) := by
  constructor
  · intro hmiss
    obtain ⟨oq, oa, ob, oc, od, oans, ocid⟩ := raw
    simp only at hmiss
    unfold parseQuestionCreate
    rcases oq with _ | oq <;> rcases oa with _ | oa <;> rcases ob with _ | ob <;>
      rcases oc with _ | oc <;> rcases od with _ | od <;>
      rcases oans with _ | oans <;> rcases ocid with _ | ocid <;> simp_all
  · intro q s' h
    obtain ⟨-, -, hch, -, hqrec, hs'⟩ := change_question_ok_inv _ _ _ _ _ h
    refine ⟨?_, ?_, ?_, ?_, ?_, ?_, ?_, hch, ?_, ?_⟩
    · rw [hqrec]
    · rw [hqrec]
    · rw [hqrec]
    · rw [hqrec]
    · rw [hqrec]
    · rw [hqrec]
    · rw [hqrec]
    · intro hlen
      obtain ⟨ch, hdata, hok, hmk⟩ := char1OfString_of_length_one _ hlen
      rw [hok, Except.ok.injEq] at hch
      unfold Question.answerStr
      rw [← hch, hmk]
    · rw [hs']

/-- A question body missing its `answer` field (all other fields present). -/
def rawMissingAnswer : RawQuestionPayload :=
  { question := some "3+3?", a_var := some "5", b_var := some "6",
    c_var := some "7", d_var := some "8", answer := none,
    category_id := some 1 }

theorem c10_full_replacement_witness :
    rawMissingAnswer.answer = none ∧
    parseQuestionCreate rawMissingAnswer = none ∧
    updatedQuestion.id = 1 ∧
    updatedQuestion.question = sampleRequest.question ∧
    updatedQuestion.a_var = sampleRequest.a_var ∧
    updatedQuestion.b_var = sampleRequest.b_var ∧
    updatedQuestion.c_var = sampleRequest.c_var ∧
    updatedQuestion.d_var = sampleRequest.d_var ∧
    updatedQuestion.category_id = sampleRequest.category_id ∧
    char1OfString (pyUpper sampleRequest.answer) = .ok updatedQuestion.answer ∧
    updatedQuestion.answerStr = pyUpper sampleRequest.answer ∧
    ({ sampleState with questions := [updatedQuestion] } : DbState).questions =
      sampleState.questions.map
        (fun old => if old.id = 1 then updatedQuestion else old) := by
  have happ := c10_full_replacement rawMissingAnswer 1 sampleRequest sampleState
  have hres := happ.2 updatedQuestion
    { sampleState with questions := [updatedQuestion] } rfl
  exact ⟨rfl, happ.1 (by decide), hres.1, hres.2.1, hres.2.2.1, hres.2.2.2.1,
    hres.2.2.2.2.1, hres.2.2.2.2.2.1, hres.2.2.2.2.2.2.1,
    hres.2.2.2.2.2.2.2.1, hres.2.2.2.2.2.2.2.2.1 (by decide),
    hres.2.2.2.2.2.2.2.2.2⟩

end QuizApi
